import Mathlib

/-!
Shallow embedding of the UI layer of the Kursova_DO_CyberPunk repository
(`src/ui/plot_view.py`, `src/ui/main_window.py`), together with proofs of
the behavioural properties stated about it.

Numbers handled by the Python code as floats are modelled as rationals (`ℚ`);
NumPy arrays become Lean lists.  Matplotlib axes are modelled by the content
that the code draws on them, which is the observable state of the view.
A fallible objective function is `ℚ × ℚ → Except Unit ℚ`; the number of
times the plotting code invokes it is threaded explicitly.
-/

set_option autoImplicit false

namespace CyberPunkUI

/-- Modelled from the spec: `core.iteration_result.IterationResult` is not part
of the provided sources (only its callers in `src/ui` are).  Section 3 of the
spec describes it as "an immutable record per optimization step — an integer
index, a numeric vector `x` (the current point), a scalar objective value `f`,
a scalar step-norm, and free-form metadata". -/
structure IterationResult where
  index : Int
  x : List ℚ
  f : ℚ
  step_norm : ℚ
  meta : List (String × String)
  deriving Repr, DecidableEq

/-- Content drawn on the `ax_fk` axes of `PlotView`. -/
inductive FkAxes where
  /-- The axes were cleared and nothing was drawn on them. -/
  | empty
  /-- The placeholder caption drawn by `show_placeholder`. -/
  | placeholderText
  /-- The line+marker series drawn by `plot_fk`: iteration indices vs values. -/
  | curve (ks : List Int) (fs : List ℚ)
  deriving Repr, DecidableEq

/-- Content drawn on the `ax_contour` axes of `PlotView`. -/
inductive ContourAxes where
  /-- The axes were cleared and nothing was drawn on them. -/
  | empty
  /-- The explanatory caption for non-2D problems. -/
  | unsupportedText
  /-- A contour plot of the grid values plus the trajectory overlay. -/
  | plotted (grid : List (ℚ × ℚ)) (z : List ℚ) (traj : List (ℚ × ℚ)) (levels : Int)
  deriving Repr, DecidableEq

/-- Content drawn on the `ax_surface` axes of `PlotView`. -/
inductive SurfaceAxes where
  /-- The axes were cleared and nothing was drawn on them. -/
  | empty
  /-- The explanatory caption for non-2D problems. -/
  | unsupportedText
  /-- A surface plot of the grid values plus the 3D trajectory overlay. -/
  | plotted (grid : List (ℚ × ℚ)) (z : List ℚ) (traj : List (ℚ × ℚ)) (ztraj : List ℚ)
  deriving Repr, DecidableEq

/-- The observable state of `PlotView`: what is drawn on its three axes. -/
structure PlotViewState where
  ax_fk : FkAxes
  ax_contour : ContourAxes
  ax_surface : SurfaceAxes
  deriving Repr, DecidableEq

/-- `PlotView.show_placeholder`: clears all three axes and draws the
placeholder caption on `ax_fk`; the resulting observable state does not
depend on the previous one. -/
def show_placeholder (_s : PlotViewState) : PlotViewState :=
  { ax_fk := .placeholderText, ax_contour := .empty, ax_surface := .empty }

/-- `PlotView.plot_fk`: on empty input delegate to `show_placeholder`,
otherwise clear `ax_fk` and draw index-vs-value as a line+marker series
(the other two axes are left untouched). -/
def plot_fk (iterations : List IterationResult) (s : PlotViewState) : PlotViewState :=
  if iterations.isEmpty then
    show_placeholder s
  else
    { s with ax_fk := .curve (iterations.map (·.index)) (iterations.map (·.f)) }

/-- First two components of a point row, as `x_vec = [X1[i, j], X2[i, j]]`
style access; only used on rows of length 2. -/
def toPair (r : List ℚ) : ℚ × ℚ :=
  (r.headD 0, (r.drop 1).headD 0)

/-- `np.ndarray.min` over a nonempty list (`xs[:, k].min()`). -/
def npMin (l : List ℚ) : ℚ :=
  l.foldl min (l.headD 0)

/-- `np.ndarray.max` over a nonempty list (`xs[:, k].max()`). -/
def npMax (l : List ℚ) : ℚ :=
  l.foldl max (l.headD 0)

/-- The degeneracy threshold `1e-9` of `plot_contour_trajectory`. -/
def degenEps : ℚ := 1 / 1000000000

/-- The trajectory as 2D points: `xs = np.array([it.x for it in iterations])`
read back as coordinate pairs. -/
def trajPts (iterations : List IterationResult) : List (ℚ × ℚ) :=
  (iterations.map (·.x)).map toPair

/-- The initial plotting bounds `((x1_min, x1_max), (x2_min, x2_max))`:
per-axis minima and maxima over the trajectory. -/
def rawBounds (pts : List (ℚ × ℚ)) : (ℚ × ℚ) × (ℚ × ℚ) :=
  ((npMin (pts.map Prod.fst), npMax (pts.map Prod.fst)),
   (npMin (pts.map Prod.snd), npMax (pts.map Prod.snd)))

/-- Degenerate-axis expansion: when `abs (max - min) < 1e-9` the code does
`min -= 1.0; max += 1.0` on that axis, independently per axis. -/
def expandBounds (b : (ℚ × ℚ) × (ℚ × ℚ)) : (ℚ × ℚ) × (ℚ × ℚ) :=
  let b1 := if |b.1.2 - b.1.1| < degenEps then (b.1.1 - 1, b.1.2 + 1) else b.1
  let b2 := if |b.2.2 - b.2.1| < degenEps then (b.2.1 - 1, b.2.2 + 1) else b.2
  (b1, b2)

/-- Padding application: `min -= padding; max += padding` on both axes. -/
def padBounds (b : (ℚ × ℚ) × (ℚ × ℚ)) (padding : ℚ) : (ℚ × ℚ) × (ℚ × ℚ) :=
  ((b.1.1 - padding, b.1.2 + padding), (b.2.1 - padding, b.2.2 + padding))

/-- The plotting bounds computed by `plot_contour_trajectory` for a given
iteration sequence and padding. -/
def boundsFor (iterations : List IterationResult) (padding : ℚ) : (ℚ × ℚ) × (ℚ × ℚ) :=
  padBounds (expandBounds (rawBounds (trajPts iterations))) padding

/-- `np.linspace a b n`: `n` evenly spaced samples from `a` to `b` inclusive
(`n = 1` gives just `[a]`). -/
def linspace (a b : ℚ) (n : Nat) : List ℚ :=
  if n = 0 then []
  else if n = 1 then [a]
  else (List.range n).map (fun i => a + (b - a) * i / (n - 1))

/-- The grid points visited by the nested `for i / for j` loop, in evaluation
order: `meshgrid` gives `X1[i, j] = x1_vals[j]` and `X2[i, j] = x2_vals[i]`. -/
def gridPoints (iterations : List IterationResult) (padding : ℚ)
    (grid_size : Nat) : List (ℚ × ℚ) :=
  let b := boundsFor iterations padding
  let x1_vals := linspace b.1.1 b.1.2 grid_size
  let x2_vals := linspace b.2.1 b.2.2 grid_size
  (List.range grid_size).flatMap fun i =>
    (List.range grid_size).map fun j => (x1_vals.getD j 0, x2_vals.getD i 0)

/-- Every point at which `plot_contour_trajectory` evaluates the objective
function, in evaluation order: the full grid, then the trajectory points
(for the 3D overlay `z_traj`). -/
def evaluatedPoints (iterations : List IterationResult) (padding : ℚ)
    (grid_size : Nat) : List (ℚ × ℚ) :=
  gridPoints iterations padding grid_size ++ trajPts iterations

/-- Sequential evaluation of a fallible function over a list of points,
counting one invocation per point; the first raised exception aborts the
whole computation (there is no handler in the source). -/
def evalSeq (func : ℚ × ℚ → Except Unit ℚ) : List (ℚ × ℚ) → Except Unit (List ℚ × Nat)
  | [] => .ok ([], 0)
  | p :: rest =>
    match func p with
    | .error e => .error e
    | .ok z =>
      match evalSeq func rest with
      | .error e => .error e
      | .ok (zs, c) => .ok (z :: zs, c + 1)

/-- `PlotView.plot_contour_trajectory`: clears the contour and surface axes;
empty input falls back to the placeholder.  `np.array([it.x for it in
iterations], dtype=float)` raises `ValueError` on mixed-length (ragged) point
rows — with an explicit float dtype no object array is ever built — modelled
as the error case; on a uniform row length the array has `ndim = 2` and
`shape[1]` is that row length, so the source's `xs.ndim != 2 or xs.shape[1]
!= 2` check reduces to the head row length differing from 2, which draws the
"unsupported" captions.  Otherwise `func` is evaluated on a
`grid_size × grid_size` grid over the padded bounding box of the trajectory,
the contour plot is rendered with the trajectory overlay, `func` is evaluated
on each trajectory point for `z_traj` and the surface plot is rendered.
Returns the resulting view state and the number of `func` invocations, or the
propagated exception. -/
def plot_contour_trajectory (func : ℚ × ℚ → Except Unit ℚ)
    (iterations : List IterationResult) (levels : Int) (padding : ℚ)
    (grid_size : Nat) (s : PlotViewState) : Except Unit (PlotViewState × Nat) :=
  let s1 : PlotViewState := { s with ax_contour := .empty, ax_surface := .empty }
  if iterations.isEmpty then
    .ok (show_placeholder s1, 0)
  else
    let xs := iterations.map (·.x)
    if !(xs.all (fun r => r.length == (xs.headD []).length)) then
      .error ()
    else if (xs.headD []).length != 2 then
      .ok ({ s1 with ax_contour := .unsupportedText, ax_surface := .unsupportedText }, 0)
    else
      let pts := trajPts iterations
      let grid := gridPoints iterations padding grid_size
      match evalSeq func grid with
      | .error e => .error e
      | .ok (z, c1) =>
        match evalSeq func pts with
        | .error e => .error e
        | .ok (ztraj, c2) =>
          .ok ({ s1 with
                  ax_contour := .plotted grid z pts levels,
                  ax_surface := .plotted grid z pts ztraj }, c1 + c2)

/-- Python truthiness of `step_value or 0.0` for an optional float:
`None` and `0.0` are falsy, any other number is truthy. -/
def pyOr (v : Option ℚ) (d : ℚ) : ℚ :=
  match v with
  | none => d
  | some q => if q = 0 then d else q

/-- Round half to even (the rounding used by Python float formatting). -/
def roundHalfEven (q : ℚ) : Int :=
  let f : Int := q.num.fdiv (q.den : Int)
  let r : ℚ := q - (f : ℚ)
  if r < 1 / 2 then f
  else if 1 / 2 < r then f + 1
  else if f % 2 = 0 then f else f + 1

/-- Scale a positive rational into `[1, 10)` recording the decimal exponent
(fuel-bounded scaling; the fuel is ample for every value considered here). -/
def sciNormalize : Nat → ℚ → Int → ℚ × Int
  | 0, m, e => (m, e)
  | fuel + 1, m, e =>
    if 10 ≤ m then sciNormalize fuel (m / 10) (e + 1)
    else if m < 1 then sciNormalize fuel (m * 10) (e - 1)
    else (m, e)

/-- The exponent suffix of `%.3e`: a sign and at least two digits. -/
def expString (e : Int) : String :=
  let sign := if e < 0 then "-" else "+"
  let a := e.natAbs
  let ds := toString a
  sign ++ (if a < 10 then "0" ++ ds else ds)

/-- A fractional part of `%.3e` padded to exactly three digits. -/
def fracString (frac : Nat) : String :=
  if frac < 10 then "00" ++ toString frac
  else if frac < 100 then "0" ++ toString frac
  else toString frac

/-- Python `f"{v:.3e}"`: scientific notation with a three-digit fraction,
e.g. `0.0013 ↦ "1.300e-03"`.  The four mantissa digits are the correctly
rounded value of `m * 1000` with `m ∈ [1, 10)` the normalized mantissa. -/
def formatSci3 (q : ℚ) : String :=
  if q = 0 then "0.000e+00"
  else
    let sgn := if q < 0 then "-" else ""
    let me := sciNormalize 4000 |q| 0
    let n := roundHalfEven (me.1 * 1000)
    let ne : Int × Int := if n = 10000 then (1000, me.2 + 1) else (n, me.2)
    sgn ++ toString (ne.1.natAbs / 1000) ++ "." ++ fracString (ne.1.natAbs % 1000) ++
      "e" ++ expString ne.2

/-- The observable state of `MainWindow`: the iteration table rows (each the
record and the step value handed to `IterationsTableWidget.add_iteration`),
the plot view state, and the three stat label texts. -/
structure MainWindowState where
  table : List (IterationResult × Option ℚ)
  plot : PlotViewState
  label_func_evals : String
  label_outer_iters : String
  label_last_step : String
  deriving Repr, DecidableEq

/-- `MainWindow.update_run_stats`: renders the three optional values as label
texts, substituting the placeholder glyph for absent ones. -/
def update_run_stats (s : MainWindowState) (func_evals : Option Int)
    (last_step : Option ℚ) (n_outer_iters : Option Int) : MainWindowState :=
  { s with
    label_func_evals :=
      "f evals: " ++ (match func_evals with | some v => toString v | none => "–"),
    label_outer_iters :=
      "outer iters: " ++ (match n_outer_iters with | some v => toString v | none => "–"),
    label_last_step :=
      match last_step with
      | none => "step: –"
      | some v => "step: " ++ formatSci3 v }

/-- The state of a freshly constructed `MainWindow`: empty table, plot view
showing the initial placeholder, stat labels built by `_build_stats_row` and
then reset by the `update_run_stats(None, None)` call in `_create_content`. -/
def initMainWindow : MainWindowState :=
  update_run_stats
    { table := []
      plot := show_placeholder { ax_fk := .empty, ax_contour := .empty, ax_surface := .empty }
      label_func_evals := "f evals: –"
      label_outer_iters := "outer iters: –"
      label_last_step := "step: –" }
    none none none

/-- `MainWindow.clear_iterations_table`: clears the table widget. -/
def clear_iterations_table (s : MainWindowState) : MainWindowState :=
  { s with table := [] }

/-- `MainWindow.clear_results`: clears the table, resets the plot to the
placeholder and resets the stats to the placeholder glyphs. -/
def clear_results (s : MainWindowState) : MainWindowState :=
  update_run_stats
    { clear_iterations_table s with plot := show_placeholder s.plot }
    none none none

/-- `MainWindow.add_iteration`: forwards the record and step value to the
iterations table, which appends one row. -/
def add_iteration (s : MainWindowState) (iteration : IterationResult)
    (step_value : Option ℚ) : MainWindowState :=
  { s with table := s.table ++ [(iteration, step_value)] }

/-- The `IterationResult` reconstructed from primitives by
`MainWindow.add_iteration_row`: `int(k)`, `np.array(x, dtype=float)`,
`float(f_val)`, `float(step_value or 0.0)` and empty metadata. -/
def mkIterationRow (k : Int) (x : List ℚ) (f_val : ℚ)
    (step_value : Option ℚ) : IterationResult :=
  { index := k, x := x, f := f_val, step_norm := pyOr step_value 0, meta := [] }

/-- `MainWindow.add_iteration_row`: rebuilds the record from primitives and
appends it via `add_iteration`. -/
def add_iteration_row (s : MainWindowState) (k : Int) (x : List ℚ) (f_val : ℚ)
    (step_value : Option ℚ) : MainWindowState :=
  add_iteration s (mkIterationRow k x f_val step_value) step_value

/-- `MainWindow.update_fk_plot`: forwards the iterations to `PlotView.plot_fk`. -/
def update_fk_plot (s : MainWindowState) (iterations : List IterationResult) :
    MainWindowState :=
  { s with plot := plot_fk iterations s.plot }

/-- `MainWindow.update_contour_trajectory`: forwards a (total) objective
function and the iterations to `PlotView.plot_contour_trajectory` with its
default arguments `levels=20, padding=0.5, grid_size=100`. -/
def update_contour_trajectory (s : MainWindowState) (g : ℚ × ℚ → ℚ)
    (iterations : List IterationResult) : MainWindowState :=
  { s with plot :=
      match plot_contour_trajectory (fun p => .ok (g p)) iterations 20 (1 / 2) 100 s.plot with
      | .ok r => r.1
      | .error _ => s.plot }

/-- One call of the public `MainWindow` update API, as relayed from the
optimization engine. -/
inductive Op where
  | addIteration (iteration : IterationResult) (step_value : Option ℚ)
  | addIterationRow (k : Int) (x : List ℚ) (f_val : ℚ) (step_value : Option ℚ)
  | updateFkPlot (iterations : List IterationResult)
  | updateContourTrajectory (g : ℚ × ℚ → ℚ) (iterations : List IterationResult)
  | updateRunStats (func_evals : Option Int) (last_step : Option ℚ)
      (n_outer_iters : Option Int)

/-- Apply one public API call to a `MainWindow` state. -/
def applyOp (s : MainWindowState) : Op → MainWindowState
  | .addIteration it sv => add_iteration s it sv
  | .addIterationRow k x f sv => add_iteration_row s k x f sv
  | .updateFkPlot its => update_fk_plot s its
  | .updateContourTrajectory g its => update_contour_trajectory s g its
  | .updateRunStats fe ls oi => update_run_stats s fe ls oi

/-- Apply a sequence of public API calls in order. -/
def applyOps (s : MainWindowState) (ops : List Op) : MainWindowState :=
  ops.foldl applyOp s

/-! ## Helper lemmas -/

theorem foldl_min_all_eq (t : List ℚ) (c : ℚ) (h : ∀ a ∈ t, a = c) :
    t.foldl min c = c := by
  induction t with
  | nil => rfl
  | cons a t ih =>
    have ha : a = c := h a (List.mem_cons_self a t)
    have ht : ∀ a ∈ t, a = c := fun x hx => h x (List.mem_cons_of_mem a hx)
    simp [ha, min_self, ih ht]

theorem foldl_max_all_eq (t : List ℚ) (c : ℚ) (h : ∀ a ∈ t, a = c) :
    t.foldl max c = c := by
  induction t with
  | nil => rfl
  | cons a t ih =>
    have ha : a = c := h a (List.mem_cons_self a t)
    have ht : ∀ a ∈ t, a = c := fun x hx => h x (List.mem_cons_of_mem a hx)
    simp [ha, max_self, ih ht]

theorem npMin_all_eq (l : List ℚ) (c : ℚ) (hne : l ≠ []) (h : ∀ a ∈ l, a = c) :
    npMin l = c := by
  cases l with
  | nil => exact absurd rfl hne
  | cons a t =>
    have ha : a = c := h a (List.mem_cons_self a t)
    have ht : ∀ x ∈ t, x = c := fun x hx => h x (List.mem_cons_of_mem a hx)
    simp only [npMin, List.headD_cons, List.foldl_cons, min_self]
    rw [ha]
    exact foldl_min_all_eq t c ht

theorem npMax_all_eq (l : List ℚ) (c : ℚ) (hne : l ≠ []) (h : ∀ a ∈ l, a = c) :
    npMax l = c := by
  cases l with
  | nil => exact absurd rfl hne
  | cons a t =>
    have ha : a = c := h a (List.mem_cons_self a t)
    have ht : ∀ x ∈ t, x = c := fun x hx => h x (List.mem_cons_of_mem a hx)
    simp only [npMax, List.headD_cons, List.foldl_cons, max_self]
    rw [ha]
    exact foldl_max_all_eq t c ht

theorem evalSeq_total (g : ℚ × ℚ → ℚ) (pts : List (ℚ × ℚ)) :
    evalSeq (fun p => .ok (g p)) pts = .ok (pts.map g, pts.length) := by
  induction pts with
  | nil => rfl
  | cons p rest ih => simp [evalSeq, ih]

theorem evalSeq_error_iff (func : ℚ × ℚ → Except Unit ℚ) (pts : List (ℚ × ℚ)) :
    evalSeq func pts = .error () ↔ ∃ p ∈ pts, func p = .error () := by
  induction pts with
  | nil => simp [evalSeq]
  | cons p rest ih =>
    constructor
    · intro h
      simp only [evalSeq] at h
      cases hp : func p with
      | error e => exact ⟨p, List.mem_cons_self p rest, by cases e; exact hp⟩
      | ok z =>
        rw [hp] at h
        cases hr : evalSeq func rest with
        | error e =>
          cases e
          obtain ⟨q, hq, hfq⟩ := ih.mp hr
          exact ⟨q, List.mem_cons_of_mem p hq, hfq⟩
        | ok val => rw [hr] at h; cases h
    · rintro ⟨q, hq, hfq⟩
      rcases List.mem_cons.mp hq with h | h
      · subst h; simp [evalSeq, hfq]
      · simp only [evalSeq]
        cases hp : func p with
        | error e => cases e; rfl
        | ok z =>
          rw [ih.mpr ⟨q, h, hfq⟩]

theorem trajPts_length (iterations : List IterationResult) :
    (trajPts iterations).length = iterations.length := by
  simp [trajPts]

theorem gridPoints_length (iterations : List IterationResult) (padding : ℚ)
    (grid_size : Nat) :
    (gridPoints iterations padding grid_size).length = grid_size * grid_size := by
  simp [gridPoints, List.length_flatMap, Function.comp_def, List.length_map,
    List.length_range, List.map_const', List.sum_replicate, smul_eq_mul]

theorem dims2_checks (a : IterationResult) (t : List IterationResult)
    (hdim : ∀ it ∈ a :: t, it.x.length = 2) :
    (((a :: t).map (·.x)).all
        (fun r => r.length == (((a :: t).map (·.x)).headD []).length)) = true ∧
    ((((a :: t).map (·.x)).headD []).length != 2) = false := by
  have hx : ((a :: t).map (·.x)).headD [] = a.x := rfl
  have hlen2 : a.x.length = 2 := hdim a (List.mem_cons_self a t)
  constructor
  · rw [List.all_eq_true]
    intro r hr
    obtain ⟨it, hit, hxr⟩ := List.mem_map.mp hr
    cases hxr
    rw [hx, hlen2, hdim it hit]
    rfl
  · rw [hx, hlen2]
    rfl

/-! ## Claim theorems -/

/-- C1: on an empty iteration sequence, `plot_fk` and `plot_contour_trajectory`
leave `PlotView` in exactly the observable state produced by `show_placeholder`
(for any prior state) and `plot_contour_trajectory` raises nothing and never
invokes the objective function. -/
theorem plot_empty_is_placeholder (func : ℚ × ℚ → Except Unit ℚ) (levels : Int)
    (padding : ℚ) (grid_size : Nat) (s : PlotViewState) :
    plot_fk [] s = show_placeholder s ∧
    plot_contour_trajectory func [] levels padding grid_size s =
      .ok (show_placeholder s, 0) :=
  ⟨rfl, rfl⟩

/-- C5: `clear_results` after any sequence of public update calls returns
`MainWindow` to the observable state of a freshly constructed instance:
empty table, plot in the placeholder state, all three stat labels showing
the placeholder glyph. -/
theorem clear_results_resets_to_fresh (ops : List Op) :
    clear_results (applyOps initMainWindow ops) = initMainWindow ∧
    initMainWindow.table = [] ∧
    initMainWindow.plot = show_placeholder initMainWindow.plot ∧
    initMainWindow.label_func_evals = "f evals: –" ∧
    initMainWindow.label_outer_iters = "outer iters: –" ∧
    initMainWindow.label_last_step = "step: –" :=
  ⟨rfl, rfl, rfl, rfl, rfl, rfl⟩

/-- C7: `add_iteration_row(3, [1.0, 2.0], 5.5, 0.1)` constructs and appends an
iteration record equal to an `IterationResult` constructed directly with
index 3, x = [1, 2], f = 5.5, step norm = 0.1 and empty metadata. -/
theorem add_iteration_row_reconstructs (s : MainWindowState) :
    add_iteration_row s 3 [1, 2] (11 / 2) (some (1 / 10)) =
      add_iteration s
        { index := 3, x := [1, 2], f := 11 / 2, step_norm := 1 / 10, meta := [] }
        (some (1 / 10)) ∧
    (add_iteration_row s 3 [1, 2] (11 / 2) (some (1 / 10))).table =
      s.table ++
        [({ index := 3, x := [1, 2], f := 11 / 2, step_norm := 1 / 10, meta := [] },
          some (1 / 10))] := by
  constructor <;> norm_num [add_iteration_row, mkIterationRow, pyOr, add_iteration]

/-- C8: for every index, point and value, `add_iteration_row` with step `0.0`
and with step `None` constructs the same iteration record, whose step norm is
`0.0`: a legitimate zero step and a missing step are indistinguishable. -/
theorem add_iteration_row_zero_step_ambiguity (k : Int) (x : List ℚ) (f_val : ℚ) :
    mkIterationRow k x f_val (some 0) = mkIterationRow k x f_val none ∧
    (mkIterationRow k x f_val none).step_norm = 0 := by
  constructor <;> simp [mkIterationRow, pyOr]

/-- C2 (counterexample): on the mixed-length sequence with points `[1, 2]`
and `[1, 2, 3]` — a non-empty sequence whose points are not exactly
2-dimensional — `plot_contour_trajectory` raises (`np.array(..., dtype=float)`
raises `ValueError` on ragged rows) instead of rendering the "unsupported"
captions without raising, refuting the claim as stated. -/
theorem plotContour_non2d_noraise_refuted :
    plot_contour_trajectory (fun _ => .ok 0)
      [{ index := 0, x := [1, 2], f := 0, step_norm := 0, meta := [] },
       { index := 1, x := [1, 2, 3], f := 0, step_norm := 0, meta := [] }] 20 (1 / 2) 100
      { ax_fk := .empty, ax_contour := .empty, ax_surface := .empty } = .error () ∧
    plot_contour_trajectory (fun _ => .ok 0)
      [{ index := 0, x := [1, 2], f := 0, step_norm := 0, meta := [] },
       { index := 1, x := [1, 2, 3], f := 0, step_norm := 0, meta := [] }] 20 (1 / 2) 100
      { ax_fk := .empty, ax_contour := .empty, ax_surface := .empty } ≠
      .ok ({ ax_fk := .empty, ax_contour := .unsupportedText,
             ax_surface := .unsupportedText }, 0) := by
  have h1 : plot_contour_trajectory (fun _ => .ok 0)
      [{ index := 0, x := [1, 2], f := 0, step_norm := 0, meta := [] },
       { index := 1, x := [1, 2, 3], f := 0, step_norm := 0, meta := [] }] 20 (1 / 2) 100
      { ax_fk := .empty, ax_contour := .empty, ax_surface := .empty } = .error () := rfl
  refine ⟨h1, ?_⟩
  rw [h1]
  simp

/-- C2 (amended): on a non-empty iteration sequence whose points all share one
common dimension d with d ≠ 2 (so that the `np.array` conversion succeeds with
shape (n, d)), `plot_contour_trajectory` draws the "unsupported" captions on
the contour and surface axes, never invokes the objective function (the
invocation count is 0) and raises nothing; mixed-length point sequences
instead raise at the `np.array(..., dtype=float)` conversion. -/
theorem plotContour_non2d_unsupported (func : ℚ × ℚ → Except Unit ℚ)
    (iterations : List IterationResult) (levels : Int) (padding : ℚ)
    (grid_size : Nat) (s : PlotViewState) (hne : iterations ≠ [])
    (hdim : ∃ d, d ≠ 2 ∧ ∀ it ∈ iterations, it.x.length = d) :
    plot_contour_trajectory func iterations levels padding grid_size s =
      .ok ({ s with ax_contour := .unsupportedText, ax_surface := .unsupportedText }, 0) := by
  obtain ⟨a, t, rfl⟩ : ∃ a t, iterations = a :: t := by
    cases iterations with
    | nil => exact absurd rfl hne
    | cons a t => exact ⟨a, t, rfl⟩
  obtain ⟨d, hd2, hlen⟩ := hdim
  have hx : ((a :: t).map (·.x)).headD [] = a.x := rfl
  have hlena : a.x.length = d := hlen a (List.mem_cons_self a t)
  have hhom : (((a :: t).map (·.x)).all
      (fun r => r.length == (((a :: t).map (·.x)).headD []).length)) = true := by
    rw [List.all_eq_true]
    intro r hr
    obtain ⟨it, hit, hxr⟩ := List.mem_map.mp hr
    cases hxr
    rw [hx, hlena, hlen it hit]
    exact beq_self_eq_true d
  have hhd : ((((a :: t).map (·.x)).headD []).length != 2) = true := by
    rw [hx, hlena]
    simpa using hd2
  dsimp only [plot_contour_trajectory]
  rw [if_neg (by simp), if_neg (by rw [hhom]; simp), if_pos hhd]

/-- C9: on a non-empty 2-dimensional iteration sequence, if the objective
function raises on some point that `plot_contour_trajectory` evaluates
(a grid cell or a trajectory point), the exception propagates to the caller
uncaught. -/
theorem plotContour_raise_propagates (func : ℚ × ℚ → Except Unit ℚ)
    (iterations : List IterationResult) (levels : Int) (padding : ℚ)
    (grid_size : Nat) (s : PlotViewState) (hne : iterations ≠ [])
    (hdim : ∀ it ∈ iterations, it.x.length = 2)
    (hraise : ∃ p ∈ evaluatedPoints iterations padding grid_size, func p = .error ()) :
    plot_contour_trajectory func iterations levels padding grid_size s = .error () := by
  obtain ⟨a, t, rfl⟩ : ∃ a t, iterations = a :: t := by
    cases iterations with
    | nil => exact absurd rfl hne
    | cons a t => exact ⟨a, t, rfl⟩
  obtain ⟨hhom, hhd⟩ := dims2_checks a t hdim
  obtain ⟨p, hp, hfp⟩ := hraise
  dsimp only [plot_contour_trajectory]
  rw [if_neg (by simp), if_neg (by rw [hhom]; simp), if_neg (by rw [hhd]; simp)]
  rcases List.mem_append.mp hp with hmem | hmem
  · have hg : evalSeq func (gridPoints (a :: t) padding grid_size) = .error () :=
      (evalSeq_error_iff func _).mpr ⟨p, hmem, hfp⟩
    rw [hg]
  · have ht : evalSeq func (trajPts (a :: t)) = .error () :=
      (evalSeq_error_iff func _).mpr ⟨p, hmem, hfp⟩
    cases hg : evalSeq func (gridPoints (a :: t) padding grid_size) with
    | error e => cases e; rfl
    | ok v => obtain ⟨z, c1⟩ := v; rw [ht]

/-- C10: on a non-empty 2-dimensional iteration sequence of length n with an
objective function that raises nowhere, `plot_contour_trajectory` invokes the
function exactly `grid_size * grid_size + n` times: once per grid cell plus
once per trajectory point for the 3D overlay. -/
theorem plotContour_eval_count (g : ℚ × ℚ → ℚ)
    (iterations : List IterationResult) (levels : Int) (padding : ℚ)
    (grid_size : Nat) (s : PlotViewState) (hne : iterations ≠ [])
    (hdim : ∀ it ∈ iterations, it.x.length = 2) :
    ∃ st, plot_contour_trajectory (fun p => .ok (g p)) iterations levels padding
        grid_size s =
      .ok (st, grid_size * grid_size + iterations.length) := by
  obtain ⟨a, t, rfl⟩ : ∃ a t, iterations = a :: t := by
    cases iterations with
    | nil => exact absurd rfl hne
    | cons a t => exact ⟨a, t, rfl⟩
  obtain ⟨hhom, hhd⟩ := dims2_checks a t hdim
  have hmain : plot_contour_trajectory (fun p => .ok (g p)) (a :: t) levels padding
      grid_size s =
      .ok ({ s with
              ax_contour := .plotted (gridPoints (a :: t) padding grid_size)
                ((gridPoints (a :: t) padding grid_size).map g) (trajPts (a :: t)) levels,
              ax_surface := .plotted (gridPoints (a :: t) padding grid_size)
                ((gridPoints (a :: t) padding grid_size).map g) (trajPts (a :: t))
                ((trajPts (a :: t)).map g) },
            grid_size * grid_size + (a :: t).length) := by
    dsimp only [plot_contour_trajectory]
    rw [if_neg (by simp), if_neg (by rw [hhom]; simp), if_neg (by rw [hhd]; simp),
      evalSeq_total, evalSeq_total]
    dsimp only
    rw [gridPoints_length, trajPts_length]
  exact ⟨_, hmain⟩

/-- C3: on a non-empty trajectory whose points all share the same coordinate
on one axis, the plotting bounds computed by `plot_contour_trajectory` span at
least 2 units plus the padding added on each side of that axis. -/
theorem plotContour_degenerate_axis_span (iterations : List IterationResult)
    (padding c : ℚ) (hne : iterations ≠ []) :
    ((∀ it ∈ iterations, (toPair it.x).1 = c) →
      (boundsFor iterations padding).1.2 - (boundsFor iterations padding).1.1 ≥
        2 + 2 * padding) ∧
    ((∀ it ∈ iterations, (toPair it.x).2 = c) →
      (boundsFor iterations padding).2.2 - (boundsFor iterations padding).2.1 ≥
        2 + 2 * padding) := by
  have hptsne : trajPts iterations ≠ [] := by
    simp [trajPts, hne]
  constructor
  · intro h
    have hall : ∀ y ∈ (trajPts iterations).map Prod.fst, y = c := by
      intro y hy
      obtain ⟨p, hp, hpy⟩ := List.mem_map.mp hy
      obtain ⟨r, hr, hrp⟩ := List.mem_map.mp hp
      obtain ⟨it, hit, hir⟩ := List.mem_map.mp hr
      subst hpy; subst hrp; subst hir
      exact h it hit
    have ha : (rawBounds (trajPts iterations)).1.1 = c :=
      npMin_all_eq _ c (by simpa using hptsne) hall
    have hb : (rawBounds (trajPts iterations)).1.2 = c :=
      npMax_all_eq _ c (by simpa using hptsne) hall
    have hexp : (expandBounds (rawBounds (trajPts iterations))).1 = (c - 1, c + 1) := by
      dsimp only [expandBounds]
      rw [ha, hb]
      rw [if_pos (by norm_num [degenEps])]
    have hfin : (boundsFor iterations padding).1 = (c - 1 - padding, c + 1 + padding) := by
      dsimp only [boundsFor, padBounds]
      rw [hexp]
    rw [hfin]
    dsimp only
    linarith
  · intro h
    have hall : ∀ y ∈ (trajPts iterations).map Prod.snd, y = c := by
      intro y hy
      obtain ⟨p, hp, hpy⟩ := List.mem_map.mp hy
      obtain ⟨r, hr, hrp⟩ := List.mem_map.mp hp
      obtain ⟨it, hit, hir⟩ := List.mem_map.mp hr
      subst hpy; subst hrp; subst hir
      exact h it hit
    have ha : (rawBounds (trajPts iterations)).2.1 = c :=
      npMin_all_eq _ c (by simpa using hptsne) hall
    have hb : (rawBounds (trajPts iterations)).2.2 = c :=
      npMax_all_eq _ c (by simpa using hptsne) hall
    have hexp : (expandBounds (rawBounds (trajPts iterations))).2 = (c - 1, c + 1) := by
      dsimp only [expandBounds]
      rw [ha, hb]
      rw [if_pos (by norm_num [degenEps])]
    have hfin : (boundsFor iterations padding).2 = (c - 1 - padding, c + 1 + padding) := by
      dsimp only [boundsFor, padBounds]
      rw [hexp]
    rw [hfin]
    dsimp only
    linarith

/-- C4 (counterexample): for the one-point trajectory at (3, 3) both axes are
degenerate, and the expansion step (before padding) yields a span of 2 on the
first axis, not the unit span the claim states. -/
theorem plotContour_unit_span_refuted :
    |(rawBounds (trajPts [{ index := 0, x := [3, 3], f := 0, step_norm := 0, meta := [] }])).1.2 -
      (rawBounds (trajPts [{ index := 0, x := [3, 3], f := 0, step_norm := 0, meta := [] }])).1.1| <
      degenEps ∧
    (expandBounds (rawBounds (trajPts [{ index := 0, x := [3, 3], f := 0, step_norm := 0, meta := [] }]))).1.2 -
      (expandBounds (rawBounds (trajPts [{ index := 0, x := [3, 3], f := 0, step_norm := 0, meta := [] }]))).1.1 = 2 ∧
    ¬ ((expandBounds (rawBounds (trajPts [{ index := 0, x := [3, 3], f := 0, step_norm := 0, meta := [] }]))).1.2 -
      (expandBounds (rawBounds (trajPts [{ index := 0, x := [3, 3], f := 0, step_norm := 0, meta := [] }]))).1.1 = 1) := by
  refine ⟨?_, ?_, ?_⟩ <;> norm_num [rawBounds, trajPts, toPair, npMin, npMax, expandBounds, degenEps]

/-- C4 (amended): a degenerate axis (trajectory extent below 1e-9) is expanded
by one unit on each side — to a span of extent + 2, not to a unit span —
before the padding is applied; a non-degenerate axis gets exactly the
bounding-box interval widened by the padding on each side. -/
theorem plotContour_bounds_expansion (iterations : List IterationResult)
    (padding : ℚ) (_hne : iterations ≠ []) :
    ((|(rawBounds (trajPts iterations)).1.2 - (rawBounds (trajPts iterations)).1.1| < degenEps →
        (boundsFor iterations padding).1 =
          ((rawBounds (trajPts iterations)).1.1 - 1 - padding,
           (rawBounds (trajPts iterations)).1.2 + 1 + padding)) ∧
     (¬ |(rawBounds (trajPts iterations)).1.2 - (rawBounds (trajPts iterations)).1.1| < degenEps →
        (boundsFor iterations padding).1 =
          ((rawBounds (trajPts iterations)).1.1 - padding,
           (rawBounds (trajPts iterations)).1.2 + padding))) ∧
    ((|(rawBounds (trajPts iterations)).2.2 - (rawBounds (trajPts iterations)).2.1| < degenEps →
        (boundsFor iterations padding).2 =
          ((rawBounds (trajPts iterations)).2.1 - 1 - padding,
           (rawBounds (trajPts iterations)).2.2 + 1 + padding)) ∧
     (¬ |(rawBounds (trajPts iterations)).2.2 - (rawBounds (trajPts iterations)).2.1| < degenEps →
        (boundsFor iterations padding).2 =
          ((rawBounds (trajPts iterations)).2.1 - padding,
           (rawBounds (trajPts iterations)).2.2 + padding))) := by
  refine ⟨⟨fun h => ?_, fun h => ?_⟩, ⟨fun h => ?_, fun h => ?_⟩⟩ <;>
    dsimp only [boundsFor, padBounds, expandBounds]
  · rw [if_pos h]
  · rw [if_neg h]
  · rw [if_pos h]
  · rw [if_neg h]

theorem sciNormalize_succ (fuel : Nat) (m : ℚ) (e : Int) :
    sciNormalize (fuel + 1) m e =
      if 10 ≤ m then sciNormalize fuel (m / 10) (e + 1)
      else if m < 1 then sciNormalize fuel (m * 10) (e - 1)
      else (m, e) := rfl

theorem sciNormalize_13em4 : sciNormalize 4000 (13 / 10000 : ℚ) 0 = (13 / 10, -3) := by
  have h1 : sciNormalize 4000 (13 / 10000 : ℚ) 0 = sciNormalize 3999 (13 / 1000 : ℚ) (-1) := by
    rw [show (4000 : Nat) = 3999 + 1 from rfl, sciNormalize_succ,
      if_neg (by norm_num), if_pos (by norm_num)]
    norm_num
  have h2 : sciNormalize 3999 (13 / 1000 : ℚ) (-1) = sciNormalize 3998 (13 / 100 : ℚ) (-2) := by
    rw [show (3999 : Nat) = 3998 + 1 from rfl, sciNormalize_succ,
      if_neg (by norm_num), if_pos (by norm_num)]
    norm_num
  have h3 : sciNormalize 3998 (13 / 100 : ℚ) (-2) = sciNormalize 3997 (13 / 10 : ℚ) (-3) := by
    rw [show (3998 : Nat) = 3997 + 1 from rfl, sciNormalize_succ,
      if_neg (by norm_num), if_pos (by norm_num)]
    norm_num
  have h4 : sciNormalize 3997 (13 / 10 : ℚ) (-3) = (13 / 10, -3) := by
    rw [show (3997 : Nat) = 3996 + 1 from rfl, sciNormalize_succ,
      if_neg (by norm_num), if_neg (by norm_num)]
  rw [h1, h2, h3, h4]

theorem roundHalfEven_1300 : roundHalfEven (1300 : ℚ) = 1300 := by
  have hnum : (1300 : ℚ).num = 1300 := rfl
  have hden : ((1300 : ℚ).den : Int) = 1 := rfl
  have hfd : (1300 : Int).fdiv 1 = 1300 := rfl
  unfold roundHalfEven
  rw [hnum, hden, hfd]
  norm_num

theorem formatSci3_13em4 : formatSci3 (13 / 10000 : ℚ) = "1.300e-03" := by
  unfold formatSci3
  rw [if_neg (by norm_num), if_neg (by norm_num),
    show |(13 : ℚ) / 10000| = 13 / 10000 from by norm_num, sciNormalize_13em4]
  dsimp only
  rw [show (13 : ℚ) / 10 * 1000 = (1300 : ℚ) from by norm_num,
    roundHalfEven_1300, if_neg (by norm_num)]
  rfl

/-- C6: `update_run_stats(None, None)` renders all three stat labels with the
placeholder glyph, and `update_run_stats(42, 0.0013, 7)` renders exactly
"f evals: 42", "outer iters: 7" and "step: 1.300e-03". -/
theorem update_run_stats_rendering :
    ((update_run_stats initMainWindow none none none).label_func_evals = "f evals: –" ∧
     (update_run_stats initMainWindow none none none).label_outer_iters = "outer iters: –" ∧
     (update_run_stats initMainWindow none none none).label_last_step = "step: –") ∧
    ((update_run_stats initMainWindow (some 42) (some (13 / 10000)) (some 7)).label_func_evals =
        "f evals: 42" ∧
     (update_run_stats initMainWindow (some 42) (some (13 / 10000)) (some 7)).label_outer_iters =
        "outer iters: 7" ∧
     (update_run_stats initMainWindow (some 42) (some (13 / 10000)) (some 7)).label_last_step =
        "step: 1.300e-03") := by
  refine ⟨⟨rfl, rfl, rfl⟩, ⟨rfl, rfl, ?_⟩⟩
  show "step: " ++ formatSci3 (13 / 10000) = "step: 1.300e-03"
  rw [formatSci3_13em4]
  rfl

/-! ## Witnesses: the hypothesis-bearing theorems applied at concrete inputs -/

theorem plotContour_non2d_unsupported_witness :
    plot_contour_trajectory (fun _ => .ok 0)
      [{ index := 0, x := [1, 2, 3], f := 4, step_norm := 0, meta := [] }] 20 (1 / 2) 100
      { ax_fk := .empty, ax_contour := .empty, ax_surface := .empty } =
    .ok ({ ax_fk := .empty, ax_contour := .unsupportedText, ax_surface := .unsupportedText }, 0) :=
  plotContour_non2d_unsupported (fun _ => .ok 0)
    [{ index := 0, x := [1, 2, 3], f := 4, step_norm := 0, meta := [] }] 20 (1 / 2) 100
    { ax_fk := .empty, ax_contour := .empty, ax_surface := .empty }
    (by simp)
    ⟨3, by decide, by decide⟩

theorem plotContour_degenerate_axis_span_witness :
    (boundsFor [{ index := 0, x := [3, 1], f := 0, step_norm := 0, meta := [] },
                { index := 1, x := [3, 2], f := 0, step_norm := 0, meta := [] }] (1 / 2)).1.2 -
      (boundsFor [{ index := 0, x := [3, 1], f := 0, step_norm := 0, meta := [] },
                  { index := 1, x := [3, 2], f := 0, step_norm := 0, meta := [] }] (1 / 2)).1.1 ≥
      2 + 2 * (1 / 2) :=
  (plotContour_degenerate_axis_span
      [{ index := 0, x := [3, 1], f := 0, step_norm := 0, meta := [] },
       { index := 1, x := [3, 2], f := 0, step_norm := 0, meta := [] }] (1 / 2) 3
      (by simp)).1
    (by decide)

theorem plotContour_bounds_expansion_witness :
    (boundsFor [{ index := 0, x := [3, 3], f := 0, step_norm := 0, meta := [] }] (1 / 2)).1 =
      ((rawBounds (trajPts [{ index := 0, x := [3, 3], f := 0, step_norm := 0, meta := [] }])).1.1 -
          1 - 1 / 2,
       (rawBounds (trajPts [{ index := 0, x := [3, 3], f := 0, step_norm := 0, meta := [] }])).1.2 +
          1 + 1 / 2) :=
  ((plotContour_bounds_expansion
      [{ index := 0, x := [3, 3], f := 0, step_norm := 0, meta := [] }] (1 / 2)
      (by simp)).1).1
    (by norm_num [rawBounds, trajPts, toPair, npMin, npMax, degenEps])

theorem plotContour_raise_propagates_witness :
    plot_contour_trajectory (fun _ => .error ())
      [{ index := 0, x := [0, 0], f := 0, step_norm := 0, meta := [] }] 20 (1 / 2) 2
      { ax_fk := .empty, ax_contour := .empty, ax_surface := .empty } = .error () :=
  plotContour_raise_propagates (fun _ => .error ())
    [{ index := 0, x := [0, 0], f := 0, step_norm := 0, meta := [] }] 20 (1 / 2) 2
    { ax_fk := .empty, ax_contour := .empty, ax_surface := .empty }
    (by simp)
    (by decide)
    ⟨(0, 0), List.mem_append_right _ (by simp [trajPts, toPair]), rfl⟩

theorem plotContour_eval_count_witness :
    ∃ st, plot_contour_trajectory (fun _ => .ok 0)
      [{ index := 0, x := [0, 0], f := 0, step_norm := 0, meta := [] }] 20 (1 / 2) 2
      { ax_fk := .empty, ax_contour := .empty, ax_surface := .empty } = .ok (st, 5) :=
  plotContour_eval_count (fun _ => 0)
    [{ index := 0, x := [0, 0], f := 0, step_norm := 0, meta := [] }] 20 (1 / 2) 2
    { ax_fk := .empty, ax_contour := .empty, ax_surface := .empty }
    (by simp)
    (by decide)

end CyberPunkUI
